import Mathlib

/-!
Verification of the construct-library specification against the source.

The development shallowly embeds the relevant parts of the repository:
the RDS parameter groups (parameter-group.ts, cluster-parameter-group.ts),
the DMS replication task identifier guard (replication-task.ts), the RDS
database instance engine guard and import/export round-trips, the EC2
client VPN endpoint construction checks, the asset zip archiver
(archive.ts), and — modelled from the spec where the core engine sources
are not part of the corpus — the construct tree id rules and the lazy
token resolution engine.
-/

/-! ## RDS parameter groups (parameter-group.ts) -/

/-- A JS object with string keys and string values, embedded as an
association list in key insertion order (translation of
`type Parameters = {[key: string]: any}`; the values passed to
`setParameter` are `string | undefined`). -/
abbrev Parameters := List (String × String)

/-- Whether a key is present (`key in this.parameters`). -/
def objContains (ps : Parameters) (k : String) : Bool :=
  ps.any (fun p => p.1 = k)

/-- JS object assignment `obj[k] = v`: an existing key keeps its position
and gets the new value, a new key is appended. -/
def objSet : Parameters → String → String → Parameters
  | [], k, v => [(k, v)]
  | (k', v') :: rest, k, v =>
    if k' = k then (k', v) :: rest else (k', v') :: objSet rest k v

/-- JS `delete obj[k]`: removes the entry with key `k`. -/
def objDelete : Parameters → String → Parameters
  | [], _ => []
  | (k', v') :: rest, k =>
    if k' = k then rest else (k', v') :: objDelete rest k

/-- The observable state of a `ParameterGroup` construct: its description
and its (mutable, in the source) parameters map. -/
structure ParameterGroupState where
  description : String
  parameters : Parameters
deriving DecidableEq

/-- Translation of `ParameterGroup.setParameter(key, value)`:

    if (value === undefined && key in this.parameters) { delete this.parameters[key]; }
    if (value !== undefined) { this.parameters[key] = value; }
-/
def ParameterGroupState.setParameter (g : ParameterGroupState) (key : String)
    (value : Option String) : ParameterGroupState :=
  let ps1 := if value = none && objContains g.parameters key
             then objDelete g.parameters key else g.parameters
  let ps2 := match value with
             | some v => objSet ps1 key v
             | none => ps1
  { g with parameters := ps2 }

/-- Translation of `ParameterGroup.removeParameter(key)`:
`this.setParameter(key, undefined)`. -/
def ParameterGroupState.removeParameter (g : ParameterGroupState) (key : String) :
    ParameterGroupState :=
  g.setParameter key none

/-- Construction properties for a ParameterGroup (`ParameterGroupProps`).
Entries of the `parameters` object may carry `undefined` values, hence
`Option String`. -/
structure ParameterGroupProps where
  family : String
  description : Option String := none
  parameters : Option (List (String × Option String)) := none

/-- Translation of the `ParameterGroup` constructor: the description
defaults to `Parameter group for ${props.family}` and every entry of
`props.parameters || {}` is installed through `setParameter`. -/
def mkParameterGroup (props : ParameterGroupProps) : ParameterGroupState :=
  let g0 : ParameterGroupState :=
    { description := props.description.getD ("Parameter group for " ++ props.family),
      parameters := [] }
  (props.parameters.getD []).foldl (fun g kv => g.setParameter kv.1 kv.2) g0

/-- The `ClusterParameterGroup` constructor calls the `ParameterGroup`
constructor and then wires `parameters: new cdk.Token(() => this.parameters)`
into its CfnDBClusterParameterGroup; the group state it exposes to that
lazy token is exactly the `ParameterGroup` state. -/
def mkClusterParameterGroup (props : ParameterGroupProps) : ParameterGroupState :=
  mkParameterGroup props

/-- Resolution of the lazy parameters token created by
`ClusterParameterGroup` (and `InstanceParameterGroup`):
`new cdk.Token(() => this.parameters)` — invoking the resolver returns the
owning group's parameters map as it is at resolution time. -/
def resolveParametersToken (g : ParameterGroupState) : Parameters :=
  g.parameters

/-- Translation of `ParameterGroup.validate()`:

    if (Object.keys(this.parameters).length === 0) {
      return ['At least one parameter required, call setParameter().'];
    }
    return [];
-/
def ParameterGroupState.validate (g : ParameterGroupState) : List String :=
  if (g.parameters.map Prod.fst).length = 0 then
    ["At least one parameter required, call setParameter()."]
  else
    []

/-- If a key is absent, JS assignment appends the new entry. -/
theorem objSet_not_contains (ps : Parameters) (k v : String)
    (h : objContains ps k = false) : objSet ps k v = ps ++ [(k, v)] := by
  induction ps with
  | nil => rfl
  | cons p rest ih =>
    simp only [objContains, List.any_cons, Bool.or_eq_false_iff] at h
    obtain ⟨h1, h2⟩ := h
    simp only [objSet, List.cons_append]
    rw [if_neg (by simpa using h1)]
    rw [ih (by simpa [objContains] using h2)]

/-- C1 counterexample: the lazy parameters token of a freshly constructed
`ClusterParameterGroup` resolves to the empty map, but after a
`setParameter` call on the owning group it resolves to the updated map —
two resolutions separated by `setParameter` do not yield the same value. -/
theorem clusterParameterGroup_token_two_resolutions_differ :
    resolveParametersToken
        ((mkClusterParameterGroup { family := "aurora5.6" }).setParameter
          "max_connections" (some "1000"))
      ≠ resolveParametersToken (mkClusterParameterGroup { family := "aurora5.6" }) := by
  decide

/-- C1 (amended): the lazy parameters token itself is immutable — its
resolver is fixed at construction and two resolutions of an unchanged
group yield the same value — but the token deliberately reflects the
group's parameters at resolution time: a resolution after a `setParameter`
call that adds a fresh key yields a different (extended) map. -/
theorem clusterParameterGroup_token_resolution (g : ParameterGroupState)
    (k v : String) (h : objContains g.parameters k = false) :
    resolveParametersToken g = resolveParametersToken g ∧
    resolveParametersToken (g.setParameter k (some v)) =
      resolveParametersToken g ++ [(k, v)] ∧
    resolveParametersToken (g.setParameter k (some v)) ≠ resolveParametersToken g := by
  refine ⟨rfl, ?_, ?_⟩
  · simp only [resolveParametersToken, ParameterGroupState.setParameter]
    simpa using objSet_not_contains g.parameters k v h
  · simp only [resolveParametersToken, ParameterGroupState.setParameter]
    rw [show (if (some v = none && objContains g.parameters k) = true
             then objDelete g.parameters k else g.parameters) = g.parameters by simp]
    rw [objSet_not_contains g.parameters k v h]
    intro hEq
    simpa using congrArg List.length hEq

/-- C1 witness: instantiation of the amended statement at a concrete
group and parameter. -/
theorem clusterParameterGroup_token_resolution_witness :
    resolveParametersToken
        ((mkClusterParameterGroup { family := "aurora5.6" }).setParameter
          "max_connections" (some "1000"))
      = resolveParametersToken (mkClusterParameterGroup { family := "aurora5.6" })
        ++ [("max_connections", "1000")] :=
  (clusterParameterGroup_token_resolution
    (mkClusterParameterGroup { family := "aurora5.6" })
    "max_connections" "1000" (by decide)).2.1

/-- C3: `ParameterGroup.validate()` returns exactly the one-element list
with the message when the parameters map is empty, and the empty list
when at least one parameter is set; it is a total function (never throws). -/
theorem parameterGroup_validate_spec (g : ParameterGroupState) :
    (g.parameters = [] →
      g.validate = ["At least one parameter required, call setParameter()."]) ∧
    (g.parameters ≠ [] → g.validate = []) := by
  constructor
  · intro h
    simp [ParameterGroupState.validate, h]
  · intro h
    simp [ParameterGroupState.validate, h]

/-- C3 witness: the validation hook evaluated on an empty and on a
nonempty parameter group. -/
theorem parameterGroup_validate_spec_witness :
    ({ description := "d", parameters := [] } : ParameterGroupState).validate
        = ["At least one parameter required, call setParameter()."] ∧
    ({ description := "d", parameters := [("max_connections", "1000")] }
        : ParameterGroupState).validate = [] :=
  ⟨(parameterGroup_validate_spec _).1 rfl,
   (parameterGroup_validate_spec _).2 (by decide)⟩

/-! ## RDS database instance (DatabaseInstance) -/

/-- The `DatabaseInstanceEngine` enum. -/
inductive DatabaseInstanceEngine where
  | Aurora
  | AuroraMysql
  | AuroraPostgresql
  | MariaDb
  | Mysql
  | OracleEE
  | OracleSE2
  | OracleSE1
  | OracleSE
  | Postgres
  | SqlServerEE
  | SqlServerSE
  | SqlServerEX
  | SqlServerWeb
deriving DecidableEq

/-- The string value of each `DatabaseInstanceEngine` member. -/
def DatabaseInstanceEngine.value : DatabaseInstanceEngine → String
  | .Aurora => "aurora"
  | .AuroraMysql => "aurora-mysql"
  | .AuroraPostgresql => "aurora-postgresql"
  | .MariaDb => "mariadb"
  | .Mysql => "mysql"
  | .OracleEE => "oracle-ee"
  | .OracleSE2 => "oracle-se2"
  | .OracleSE1 => "oracle-se1"
  | .OracleSE => "oracle-se"
  | .Postgres => "postgres"
  | .SqlServerEE => "sqlserver-ee"
  | .SqlServerSE => "sqlserver-se"
  | .SqlServerEX => "sqlserver-ex"
  | .SqlServerWeb => "sqlserver-web"

/-- Translation of `/aurora/.test(s)`: the regex has no anchors or
operators, so it tests whether `"aurora"` occurs as a substring. -/
def auroraRegexTest (s : String) : Bool :=
  decide ("aurora".toList <:+: s.toList)

/-- Translation of the first guard of the `DatabaseInstance` constructor:

    if (props.databaseCluster && /aurora/.test(props.engine)) {
      throw new Error('Cannot specify `databaseCluster` when engine is not aurora.');
    }
-/
def databaseClusterEngineGuard (databaseCluster : Bool)
    (engine : DatabaseInstanceEngine) : Option String :=
  if databaseCluster && auroraRegexTest engine.value then
    some "Cannot specify `databaseCluster` when engine is not aurora."
  else
    none

/-- C8: with `databaseCluster` defined, the guard throws its error exactly
when the engine string matches `/aurora/`, which over the engine enum
means exactly the three aurora members; with a non-aurora engine the
guard does not throw. -/
theorem databaseInstance_auroraGuard (engine : DatabaseInstanceEngine) :
    (databaseClusterEngineGuard true engine =
        some "Cannot specify `databaseCluster` when engine is not aurora."
      ↔ auroraRegexTest engine.value = true) ∧
    (auroraRegexTest engine.value = true ↔
      (engine = .Aurora ∨ engine = .AuroraMysql ∨ engine = .AuroraPostgresql)) ∧
    (auroraRegexTest engine.value = false → databaseClusterEngineGuard true engine = none) := by
  cases engine <;> refine ⟨by decide, by decide, fun h => by revert h; decide⟩

/-- C8 witness: the guard fires for the aurora engine and stays silent for
mysql, with `databaseCluster` present in both cases. -/
theorem databaseInstance_auroraGuard_witness :
    databaseClusterEngineGuard true DatabaseInstanceEngine.Mysql = none ∧
    databaseClusterEngineGuard true DatabaseInstanceEngine.Aurora =
      some "Cannot specify `databaseCluster` when engine is not aurora." :=
  ⟨(databaseInstance_auroraGuard DatabaseInstanceEngine.Mysql).2.2 (by decide),
   (databaseInstance_auroraGuard DatabaseInstanceEngine.Aurora).1.mpr (by decide)⟩

/-! ## Import/export round-trips (C9) -/

/-- An export's result: the returned import-props record together with the
list of CfnOutput ids the call declared in the stack. -/
structure ExportResult (α : Type) where
  value : α
  outputsDeclared : List String
deriving DecidableEq

/-- `ParameterGroupImportProps`. -/
structure ParameterGroupImportProps where
  parameterGroupName : String
deriving DecidableEq

/-- `ImportedParameterGroup`: stores the construction props and mirrors
`parameterGroupName`. -/
structure ImportedParameterGroup where
  props : ParameterGroupImportProps
  parameterGroupName : String
deriving DecidableEq

/-- Translation of the `ImportedParameterGroup` constructor. -/
def importParameterGroup (props : ParameterGroupImportProps) : ImportedParameterGroup :=
  { props := props, parameterGroupName := props.parameterGroupName }

/-- Translation of `ImportedParameterGroup.export()`: `return this.props;`
— no CfnOutput is created. -/
def ImportedParameterGroup.exportCall (g : ImportedParameterGroup) :
    ExportResult ParameterGroupImportProps :=
  { value := g.props, outputsDeclared := [] }

/-- An RDS `Endpoint` (hostname and port). -/
structure EndpointModel where
  hostname : String
  port : String
deriving DecidableEq

/-- `DatabaseInstanceImportProps`. -/
structure DatabaseInstanceImportProps where
  instanceIdentifier : String
  endpointAddress : String
  port : String
  securityGroupId : String
deriving DecidableEq

/-- `ImportedDatabaseInstance`: stores the construction props and the
fields derived from them. -/
structure ImportedDatabaseInstance where
  props : DatabaseInstanceImportProps
  instanceIdentifier : String
  instanceEndpoint : EndpointModel
  securityGroupId : String
deriving DecidableEq

/-- Translation of the `ImportedDatabaseInstance` constructor. -/
def importDatabaseInstance (props : DatabaseInstanceImportProps) : ImportedDatabaseInstance :=
  { props := props,
    instanceIdentifier := props.instanceIdentifier,
    instanceEndpoint := { hostname := props.endpointAddress, port := props.port },
    securityGroupId := props.securityGroupId }

/-- Translation of `ImportedDatabaseInstance.export()`: `return this.props;`. -/
def ImportedDatabaseInstance.exportCall (i : ImportedDatabaseInstance) :
    ExportResult DatabaseInstanceImportProps :=
  { value := i.props, outputsDeclared := [] }

/-- `DatabaseClusterImportProps`. -/
structure DatabaseClusterImportProps where
  port : String
  securityGroupId : String
  clusterIdentifier : String
  instanceIdentifiers : List String
  clusterEndpointAddress : String
  readerEndpointAddress : String
  instanceEndpointAddresses : List String
deriving DecidableEq

/-- `ImportedDatabaseCluster`: stores the construction props and the
fields derived from them. -/
structure ImportedDatabaseCluster where
  props : DatabaseClusterImportProps
  clusterIdentifier : String
  clusterEndpoint : EndpointModel
  readerEndpoint : EndpointModel
  instanceEndpoints : List EndpointModel
  securityGroupId : String
deriving DecidableEq

/-- Translation of the `ImportedDatabaseCluster` constructor. -/
def importDatabaseCluster (props : DatabaseClusterImportProps) : ImportedDatabaseCluster :=
  { props := props,
    clusterIdentifier := props.clusterIdentifier,
    clusterEndpoint := { hostname := props.clusterEndpointAddress, port := props.port },
    readerEndpoint := { hostname := props.readerEndpointAddress, port := props.port },
    instanceEndpoints :=
      props.instanceEndpointAddresses.map fun a => { hostname := a, port := props.port },
    securityGroupId := props.securityGroupId }

/-- Translation of `ImportedDatabaseCluster.export()`: `return this.props;`. -/
def ImportedDatabaseCluster.exportCall (c : ImportedDatabaseCluster) :
    ExportResult DatabaseClusterImportProps :=
  { value := c.props, outputsDeclared := [] }

/-- C9: import-then-export is the identity on import props for
`ImportedParameterGroup`, `ImportedDatabaseInstance` and
`ImportedDatabaseCluster`, and none of the three export calls declares a
new output in the stack. -/
theorem imported_export_roundtrip (p1 : ParameterGroupImportProps)
    (p2 : DatabaseInstanceImportProps) (p3 : DatabaseClusterImportProps) :
    (importParameterGroup p1).exportCall = { value := p1, outputsDeclared := [] } ∧
    (importDatabaseInstance p2).exportCall = { value := p2, outputsDeclared := [] } ∧
    (importDatabaseCluster p3).exportCall = { value := p3, outputsDeclared := [] } :=
  ⟨rfl, rfl, rfl⟩

/-! ## DMS replication task (replication-task.ts) -/

/-- The character class `[A-Za-z0-9-]` of `IDENTIFIER_REGEX`. -/
def isIdentifierChar (c : Char) : Bool :=
  c.isAlpha || c.isDigit || c == '-'

/-- The negative lookahead `(?!.*--)` of `IDENTIFIER_REGEX`: whether the
character list contains two consecutive hyphens. -/
def hasDoubleHyphen : List Char → Bool
  | [] => false
  | [_] => false
  | c1 :: c2 :: rest => (c1 == '-' && c2 == '-') || hasDoubleHyphen (c2 :: rest)

/-- Translation of
`IDENTIFIER_REGEX = /^(?![\-0-9])(?!.*--)[A-Za-z0-9-]{1,255}(?<!-)$/.test`,
component by component: the first lookahead rejects a leading hyphen or
digit, the second rejects a double hyphen anywhere, the anchored body
requires 1 to 255 characters of the class, and the lookbehind rejects a
trailing hyphen. -/
def IDENTIFIER_REGEX_test (s : String) : Bool :=
  let cs := s.toList
  (match cs with
   | [] => true
   | c :: _ => !(c == '-' || c.isDigit))
  && !hasDoubleHyphen cs
  && (decide (1 ≤ cs.length) && decide (cs.length ≤ 255))
  && cs.all isIdentifierChar
  && (cs.getLast? != some '-')

/-- The identifier constraints as the specification words them: 1-255
characters drawn from ASCII letters, digits and hyphens, not starting
with a hyphen or digit, not ending with a hyphen, and containing no two
consecutive hyphens. -/
def identifierConstraints (s : String) : Prop :=
  1 ≤ s.length ∧ s.length ≤ 255 ∧
  (∀ c ∈ s.toList, c.isAlpha = true ∨ c.isDigit = true ∨ c = '-') ∧
  (∀ c ∈ s.toList.take 1, ¬(c = '-' ∨ c.isDigit = true)) ∧
  s.toList.getLast? ≠ some '-' ∧
  (∀ i, i < s.length → ¬(s.toList[i]? = some '-' ∧ s.toList[i + 1]? = some '-'))

instance (s : String) : Decidable (identifierConstraints s) := by
  unfold identifierConstraints
  infer_instance

/-- The double-hyphen search finds exactly the positions of two
consecutive hyphens. -/
theorem hasDoubleHyphen_iff (cs : List Char) :
    hasDoubleHyphen cs = true ↔
      ∃ i, cs[i]? = some '-' ∧ cs[i + 1]? = some '-' := by
  induction cs with
  | nil => simp [hasDoubleHyphen]
  | cons c1 rest ih =>
    cases rest with
    | nil =>
      constructor
      · intro h
        simp [hasDoubleHyphen] at h
      · rintro ⟨i, _, h2⟩
        have hnone : ([c1] : List Char)[i + 1]? = none :=
          List.getElem?_eq_none (by simp)
        rw [hnone] at h2
        cases h2
    | cons c2 rest2 =>
      simp only [hasDoubleHyphen, Bool.or_eq_true, Bool.and_eq_true, beq_iff_eq, ih]
      constructor
      · rintro (⟨h1, h2⟩ | ⟨i, h1, h2⟩)
        · exact ⟨0, by simp [h1], by simp [h2]⟩
        · exact ⟨i + 1, by simpa using h1, by simpa using h2⟩
      · rintro ⟨i, h1, h2⟩
        cases i with
        | zero =>
          left
          simp only [List.getElem?_cons_zero, Option.some.injEq] at h1
          have h2' : c2 = '-' := by simpa using h2
          exact ⟨h1, h2'⟩
        | succ j =>
          right
          exact ⟨j, by simpa using h1, by simpa using h2⟩

/-- Absence of a double hyphen, in bounded-index form. -/
theorem hasDoubleHyphen_eq_false_iff (cs : List Char) :
    hasDoubleHyphen cs = false ↔
      ∀ i, i < cs.length → ¬(cs[i]? = some '-' ∧ cs[i + 1]? = some '-') := by
  rw [← Bool.not_eq_true, hasDoubleHyphen_iff]
  constructor
  · intro h i _ hc
    exact h ⟨i, hc⟩
  · rintro h ⟨i, h1, h2⟩
    by_cases hi : i < cs.length
    · exact h i hi ⟨h1, h2⟩
    · rw [List.getElem?_eq_none (Nat.le_of_not_lt hi)] at h1
      cases h1

/-- The regex test holds exactly when the identifier constraints, as the
specification words them, hold. -/
theorem IDENTIFIER_REGEX_test_iff (s : String) :
    IDENTIFIER_REGEX_test s = true ↔ identifierConstraints s := by
  have hlen : s.length = s.toList.length := rfl
  unfold IDENTIFIER_REGEX_test identifierConstraints
  rw [hlen]
  simp only [Bool.and_eq_true, decide_eq_true_eq, List.all_eq_true, bne_iff_ne, ne_eq,
    Bool.not_eq_true', hasDoubleHyphen_eq_false_iff, isIdentifierChar, Bool.or_eq_true,
    beq_iff_eq]
  cases cs : s.toList with
  | nil =>
    simp
  | cons c rest =>
    simp only [List.take_succ_cons, List.take_zero, List.mem_singleton,
      Bool.not_eq_true', Bool.or_eq_false_iff, beq_eq_false_iff_ne, ne_eq,
      Bool.not_eq_true, forall_eq]
    simp only [or_assoc, not_or, Bool.not_eq_true]
    tauto

/-- The fields of `ReplicationTaskProps` that the identifier guard and
the resource creation consume. -/
structure ReplicationTaskProps where
  replicationTaskIdentifier : Option String := none
  migrationType : String
  tableMappings : String

/-- The `CfnReplicationTask` resource created by the constructor
(restricted to the modelled fields). -/
structure CfnReplicationTaskModel where
  migrationType : String
  replicationTaskIdentifier : Option String
  tableMappings : String
deriving DecidableEq

/-- The error message thrown for a malformed replication task identifier. -/
def identifierErrorMessage : String :=
  "Identifier must begin with a letter and must contain only ASCII letters, digits, and hyphens. They can't end with a hyphen or contain two consecutive hyphens. Maximum length is 255."

/-- Translation of the `ReplicationTask` constructor:

    if (props.replicationTaskIdentifier && !IDENTIFIER_REGEX.test(props.replicationTaskIdentifier)) {
      throw new Error(...);
    }

The left conjunct is a JS truthiness check: an undefined identifier and
the empty string are both falsy and skip the guard. The guard runs first,
and only when it does not throw is the `CfnReplicationTask` resource
created — an `Except.error` result therefore means the constructor threw
at tree-build time before any resource existed. -/
def mkReplicationTask (props : ReplicationTaskProps) :
    Except String CfnReplicationTaskModel :=
  match props.replicationTaskIdentifier with
  | some ident =>
    if !(ident == "") && !IDENTIFIER_REGEX_test ident then
      .error identifierErrorMessage
    else
      .ok { migrationType := props.migrationType,
            replicationTaskIdentifier := some ident,
            tableMappings := props.tableMappings }
  | none =>
    .ok { migrationType := props.migrationType,
          replicationTaskIdentifier := none,
          tableMappings := props.tableMappings }

/-- C4 counterexample: the empty identifier violates the claim's
constraint list (it has 0 characters, not 1-255), yet the constructor
does not throw for it — the JS truthiness check skips the guard for the
falsy empty string and the resource is created with the empty identifier. -/
theorem replicationTask_empty_identifier_not_rejected :
    ¬ identifierConstraints "" ∧
    mkReplicationTask { replicationTaskIdentifier := some "",
                        migrationType := "full-load", tableMappings := "tm" } =
      .ok { migrationType := "full-load",
            replicationTaskIdentifier := some "",
            tableMappings := "tm" } :=
  ⟨by decide, by rfl⟩

/-- C4 (amended): constructing a `ReplicationTask` with a non-empty
identifier violating the constraints (1-255 ASCII letters, digits and
hyphens, not starting with a hyphen or digit, not ending with a hyphen,
no two consecutive hyphens) throws in the constructor before the resource
is created; an identifier satisfying the constraints does not trigger
this error; and the empty identifier — JS-falsy — skips the guard
entirely, so the constructor does not throw for it. -/
theorem replicationTask_identifier_guard (props : ReplicationTaskProps) (ident : String)
    (hid : props.replicationTaskIdentifier = some ident) :
    (ident ≠ "" → ¬ identifierConstraints ident →
        mkReplicationTask props = .error identifierErrorMessage) ∧
    (identifierConstraints ident →
        mkReplicationTask props =
          .ok { migrationType := props.migrationType,
                replicationTaskIdentifier := some ident,
                tableMappings := props.tableMappings }) ∧
    (ident = "" →
        mkReplicationTask props =
          .ok { migrationType := props.migrationType,
                replicationTaskIdentifier := some ident,
                tableMappings := props.tableMappings }) := by
  refine ⟨?_, ?_, ?_⟩
  · intro hne h
    have htest : IDENTIFIER_REGEX_test ident = false := by
      rw [← Bool.not_eq_true]
      intro hc
      exact h ((IDENTIFIER_REGEX_test_iff ident).mp hc)
    simp [mkReplicationTask, hid, htest, hne]
  · intro h
    have htest : IDENTIFIER_REGEX_test ident = true :=
      (IDENTIFIER_REGEX_test_iff ident).mpr h
    simp [mkReplicationTask, hid, htest]
  · intro he
    simp [mkReplicationTask, hid, he]

/-- C4 witness: a valid identifier passes the guard and the resource is
created, and a non-empty invalid identifier (a double hyphen) makes the
constructor throw; each hypothesis is discharged at its concrete
identifier. -/
theorem replicationTask_identifier_guard_witness :
    mkReplicationTask { replicationTaskIdentifier := some "task-1",
                        migrationType := "full-load", tableMappings := "tm" } =
      .ok { migrationType := "full-load",
            replicationTaskIdentifier := some "task-1",
            tableMappings := "tm" } ∧
    mkReplicationTask { replicationTaskIdentifier := some "a--b",
                        migrationType := "full-load", tableMappings := "tm" } =
      .error identifierErrorMessage :=
  ⟨(replicationTask_identifier_guard _ "task-1" rfl).2.1 (by decide),
   (replicationTask_identifier_guard _ "a--b" rfl).1 (by decide) (by decide)⟩

/-! ## EC2 client VPN endpoint (client-vpn-endpoint.ts) -/

/-- A CDK string-typed value: either a concrete (resolved) string or an
unresolved Token (identified by an opaque handle). -/
inductive CdkString where
  | resolved : String → CdkString
  | token : Nat → CdkString
deriving DecidableEq

/-- Translation of `Token.isUnresolved(value)`. -/
def CdkString.isUnresolved : CdkString → Bool
  | .token _ => true
  | .resolved _ => false

/-- The fields of `ClientVpnEndpointProps` consumed by the constructor's
validity checks; `vpcCidrBlock` stands for `props.vpc.vpcCidrBlock`, and
the certificate and log fields record presence of the optional props. -/
structure ClientVpnEndpointPropsModel where
  cidr : String
  vpcCidrBlock : CdkString
  dnsServers : Option (List String) := none
  logging : Option Bool := none
  logGroup : Bool := false
  logStream : Bool := false
  clientCertificate : Bool := false
  userBasedAuthDirectoryId : Option String := none
  userBasedAuthSamlProviderArn : Option String := none
deriving DecidableEq

/-- The overlap error message. -/
def clientCidrOverlapMessage : String :=
  "The client CIDR cannot overlap with the local CIDR of the VPC"

/-- Translation of the client-CIDR/VPC-CIDR overlap check:

    if (!Token.isUnresolved(props.vpc.vpcCidrBlock)) {
      const clientCidr = new CidrBlock(props.cidr);
      const vpcCidr = new CidrBlock(props.vpc.vpcCidrBlock);
      if (vpcCidr.containsCidr(clientCidr)) { throw ... }
    }

`containsCidr` (network-util.ts, outside the corpus) is kept abstract as
a parameter. -/
def clientVpnOverlapCheck (containsCidr : String → String → Bool)
    (props : ClientVpnEndpointPropsModel) : Option String :=
  if props.vpcCidrBlock.isUnresolved = false then
    match props.vpcCidrBlock with
    | .resolved vpcCidr =>
      if containsCidr vpcCidr props.cidr then some clientCidrOverlapMessage else none
    | .token _ => none
  else
    none

/-- Translation of the DNS servers check. -/
def clientVpnDnsCheck (props : ClientVpnEndpointPropsModel) : Option String :=
  match props.dnsServers with
  | some servers =>
    if servers.length > 2 then some "A client VPN endpoint can have up to two DNS servers"
    else none
  | none => none

/-- Translation of the logging check (`props.logging == false` holds in JS
exactly when logging is the defined value false). -/
def clientVpnLoggingCheck (props : ClientVpnEndpointPropsModel) : Option String :=
  if props.logging = some false && (props.logGroup || props.logStream) then
    some "Cannot specify `logGroup` or `logStream` when logging is disabled"
  else
    none

/-- Translation of the error cases of `renderAuthenticationOptions`. -/
def clientVpnAuthCheck (props : ClientVpnEndpointPropsModel) : Option String :=
  if props.userBasedAuthDirectoryId.isSome && props.userBasedAuthSamlProviderArn.isSome then
    some "Cannot use both Active Directory and Federated authentication"
  else if !props.clientCertificate && !props.userBasedAuthDirectoryId.isSome
          && !props.userBasedAuthSamlProviderArn.isSome then
    some "A client VPN endpoint must use at least one authentication option"
  else
    none

/-- Translation of the `ClientVpnEndpoint` constructor's check sequence, in
source order: the first check that fires aborts construction with its
error. -/
def mkClientVpnEndpointChecks (containsCidr : String → String → Bool)
    (props : ClientVpnEndpointPropsModel) : Option String :=
  match clientVpnOverlapCheck containsCidr props with
  | some e => some e
  | none =>
    match clientVpnDnsCheck props with
    | some e => some e
    | none =>
      match clientVpnLoggingCheck props with
      | some e => some e
      | none => clientVpnAuthCheck props

/-- The DNS check returns either no error or its fixed message. -/
theorem clientVpnDnsCheck_vals (props : ClientVpnEndpointPropsModel) :
    clientVpnDnsCheck props = none ∨
    clientVpnDnsCheck props = some "A client VPN endpoint can have up to two DNS servers" := by
  unfold clientVpnDnsCheck
  cases h : props.dnsServers with
  | none => left; rfl
  | some servers =>
    by_cases hl : servers.length > 2
    · right; simp [hl]
    · left; simp [hl]

/-- The logging check returns either no error or its fixed message. -/
theorem clientVpnLoggingCheck_vals (props : ClientVpnEndpointPropsModel) :
    clientVpnLoggingCheck props = none ∨
    clientVpnLoggingCheck props =
      some "Cannot specify `logGroup` or `logStream` when logging is disabled" := by
  unfold clientVpnLoggingCheck
  split
  · right; rfl
  · left; rfl

/-- The authentication check returns either no error or one of its two
fixed messages. -/
theorem clientVpnAuthCheck_vals (props : ClientVpnEndpointPropsModel) :
    clientVpnAuthCheck props = none ∨
    clientVpnAuthCheck props =
      some "Cannot use both Active Directory and Federated authentication" ∨
    clientVpnAuthCheck props =
      some "A client VPN endpoint must use at least one authentication option" := by
  unfold clientVpnAuthCheck
  split
  · right; left; rfl
  · split
    · right; right; rfl
    · left; rfl

/-- Every error the later checks can raise differs from the overlap
message. -/
theorem laterChecks_ne_overlap (props : ClientVpnEndpointPropsModel) :
    (match clientVpnDnsCheck props with
     | some e => some e
     | none =>
       match clientVpnLoggingCheck props with
       | some e => some e
       | none => clientVpnAuthCheck props) ≠ some clientCidrOverlapMessage := by
  rcases clientVpnDnsCheck_vals props with h1 | h1 <;> rw [h1]
  · rcases clientVpnLoggingCheck_vals props with h2 | h2 <;> rw [h2]
    · rcases clientVpnAuthCheck_vals props with h3 | h3 | h3 <;> rw [h3] <;>
        simp [clientCidrOverlapMessage]
    · simp [clientCidrOverlapMessage]
  · simp [clientCidrOverlapMessage]

/-- C10: the client-CIDR/VPC-CIDR overlap check runs only when the VPC
CIDR is a concrete value — for a token-valued VPC CIDR the construction
never raises the overlap error, whatever the overlap relation is; for a
resolved VPC CIDR the overlap error is raised exactly when the
(abstracted) `containsCidr` test holds. -/
theorem clientVpnEndpoint_overlap_check (containsCidr : String → String → Bool)
    (props : ClientVpnEndpointPropsModel) :
    (props.vpcCidrBlock.isUnresolved = true →
      mkClientVpnEndpointChecks containsCidr props ≠ some clientCidrOverlapMessage) ∧
    (∀ s, props.vpcCidrBlock = .resolved s →
      (mkClientVpnEndpointChecks containsCidr props = some clientCidrOverlapMessage ↔
        containsCidr s props.cidr = true)) := by
  constructor
  · intro h
    have hov : clientVpnOverlapCheck containsCidr props = none := by
      unfold clientVpnOverlapCheck
      rw [h]
      simp
    unfold mkClientVpnEndpointChecks
    rw [hov]
    exact laterChecks_ne_overlap props
  · intro s hs
    have hov : clientVpnOverlapCheck containsCidr props =
        (if containsCidr s props.cidr then some clientCidrOverlapMessage else none) := by
      unfold clientVpnOverlapCheck
      rw [hs]
      simp [CdkString.isUnresolved]
    unfold mkClientVpnEndpointChecks
    rw [hov]
    by_cases hc : containsCidr s props.cidr = true
    · simp [hc]
    · rw [Bool.not_eq_true] at hc
      rw [hc]
      simp only [Bool.false_eq_true, if_false]
      constructor
      · intro habs
        exact absurd habs (laterChecks_ne_overlap props)
      · intro habs
        cases habs

/-- C10 witness: with a token-valued VPC CIDR, even an overlap relation
that always holds never produces the overlap error. -/
theorem clientVpnEndpoint_overlap_check_witness :
    mkClientVpnEndpointChecks (fun _ _ => true)
        { cidr := "10.0.0.0/16", vpcCidrBlock := .token 0, clientCertificate := true }
      ≠ some clientCidrOverlapMessage :=
  (clientVpnEndpoint_overlap_check (fun _ _ => true)
    { cidr := "10.0.0.0/16", vpcCidrBlock := .token 0, clientCertificate := true }).1 rfl

/-! ## Construct tree ids and repeated export (C5) -/

/-- Modelled from the spec: the construct tree enforces id uniqueness per
parent — "duplicate sibling ids is a fatal construction-time error"
(section 4.2) — so creating a child construct (such as a `cdk.CfnOutput`)
under a scope that already has a child with that id fails; otherwise the
child is appended. The core construct-tree sources are not part of the
corpus. -/
def addChild (children : List String) (childId : String) : Except String (List String) :=
  if childId ∈ children then
    .error ("There is already a Construct with id " ++ childId)
  else
    .ok (children ++ [childId])

/-- Sequentially create one child per id, stopping at the first duplicate
id error. -/
def addChildren (children : List String) : List String → Except String (List String)
  | [] => .ok children
  | childId :: rest =>
    match addChild children childId with
    | .error e => .error e
    | .ok children2 => addChildren children2 rest

/-- The CfnOutput ids `DatabaseInstance.export()` creates, in source
order: one output per exported attribute. -/
def databaseInstanceExportOutputIds : List String :=
  ["InstanceId", "EndpointAddress", "Port", "SecurityGroupId"]

/-- Translation of `DatabaseInstance.export()` at the construct-tree
level: each call creates a fresh `cdk.CfnOutput` child per exported
attribute, with the fixed ids above, under the instance construct; the
result is the instance's updated child list. -/
def databaseInstanceExportRun (children : List String) : Except String (List String) :=
  addChildren children databaseInstanceExportOutputIds

/-- The children the `DatabaseInstance` constructor itself creates (for a
minimal configuration). -/
def databaseInstanceInitialChildren : List String :=
  ["SubnetGroup", "SecurityGroup", "Secret", "Resource", "SecretAttachement"]

/-- C5 counterexample: calling `export()` twice on the same
`DatabaseInstance` does not dedup to a single export entry — the second
call aborts with a duplicate-id construction error on the first output id. -/
theorem databaseInstance_export_twice_fails :
    (databaseInstanceExportRun databaseInstanceInitialChildren).bind
        databaseInstanceExportRun
      = .error "There is already a Construct with id InstanceId" := by
  rfl

/-- C5 (amended): a first `export()` call materializes exactly one output
per exported attribute; a repeated `export()` call on the same construct
does not add a second set of exports — it fails with the spec's
duplicate-sibling-id construction-time error instead of being
deduplicated. -/
theorem databaseInstance_export_dedup (children : List String)
    (h : ∀ cid ∈ databaseInstanceExportOutputIds, cid ∉ children) :
    databaseInstanceExportRun children = .ok (children ++ databaseInstanceExportOutputIds) ∧
    ∀ children2, databaseInstanceExportRun children = .ok children2 →
      databaseInstanceExportRun children2 =
        .error "There is already a Construct with id InstanceId" := by
  have h1 : "InstanceId" ∉ children := h _ (by decide)
  have h2 : "EndpointAddress" ∉ children := h _ (by decide)
  have h3 : "Port" ∉ children := h _ (by decide)
  have h4 : "SecurityGroupId" ∉ children := h _ (by decide)
  have hrun : databaseInstanceExportRun children =
      .ok (children ++ databaseInstanceExportOutputIds) := by
    simp [databaseInstanceExportRun, databaseInstanceExportOutputIds, addChildren, addChild,
      h1, h2, h3, h4]
  refine ⟨hrun, ?_⟩
  intro children2 hok
  rw [hrun] at hok
  injection hok with hok
  subst hok
  simp [databaseInstanceExportRun, databaseInstanceExportOutputIds, addChildren, addChild]

/-- C5 witness: the amended statement at a concrete instance whose
constructor-created children do not clash with the output ids. -/
theorem databaseInstance_export_dedup_witness :
    databaseInstanceExportRun databaseInstanceInitialChildren =
      .ok (databaseInstanceInitialChildren ++ databaseInstanceExportOutputIds) :=
  (databaseInstance_export_dedup databaseInstanceInitialChildren (by decide)).1

/-! ## Asset archiving (archive.ts, zipDirectory) -/

/-- A file found by `glob.sync('**', ...)` together with the data and mode
read for it (`readFileAsync`, `statAsync`). -/
structure FileEntry where
  name : String
  contents : List Nat
  mode : Nat
deriving DecidableEq

/-- The pinned entry timestamp:
`new Date('1980-01-01T00:00:00.000Z')` — "reset dates to get the same
hash for the same content". -/
def zipEntryDate : String := "1980-01-01T00:00:00.000Z"

/-- A zip archive entry as `archive.append(data, {name, date, mode})`
queues it; the archive's byte stream lists entries in append order, so
two archives are byte-identical exactly when their entry lists are equal. -/
structure ZipEntry where
  name : String
  date : String
  mode : Nat
  contents : List Nat
deriving DecidableEq

/-- The entry one `archive.append` call queues for a file. -/
def appendedEntry (f : FileEntry) : ZipEntry :=
  { name := f.name, date := zipEntryDate, mode := f.mode, contents := f.contents }

/-- Translation of `zipDirectory`: `files` is the sorted `glob.sync`
output. The `archive.append` calls happen inside
`Promise.all(files.map(async ...))` callbacks, after each file's read
completes, so the append order is the read-completion order — any
permutation of `files` is a possible schedule. The result is the
archive's entry list in append order (`none` for an impossible,
non-permutation schedule). -/
def zipDirectoryRun (files completionOrder : List FileEntry) :
    Option (List ZipEntry) :=
  if completionOrder.Perm files then
    some (completionOrder.map appendedEntry)
  else
    none

/-- C2: `zipDirectory` over identical directory contents is not
byte-deterministic — for a two-file directory, the two read-completion
schedules are both possible and produce archives with differently ordered
entries, hence different bytes and different `contentHash` values, even
though every entry's date is pinned to `1980-01-01T00:00:00.000Z` and the
glob file list is sorted. -/
theorem zipDirectory_nondeterministic :
    (zipDirectoryRun
        [{ name := "a.txt", contents := [1], mode := 420 },
         { name := "b.txt", contents := [2], mode := 420 }]
        [{ name := "a.txt", contents := [1], mode := 420 },
         { name := "b.txt", contents := [2], mode := 420 }]).isSome = true ∧
    (zipDirectoryRun
        [{ name := "a.txt", contents := [1], mode := 420 },
         { name := "b.txt", contents := [2], mode := 420 }]
        [{ name := "b.txt", contents := [2], mode := 420 },
         { name := "a.txt", contents := [1], mode := 420 }]).isSome = true ∧
    zipDirectoryRun
        [{ name := "a.txt", contents := [1], mode := 420 },
         { name := "b.txt", contents := [2], mode := 420 }]
        [{ name := "a.txt", contents := [1], mode := 420 },
         { name := "b.txt", contents := [2], mode := 420 }]
      ≠ zipDirectoryRun
        [{ name := "a.txt", contents := [1], mode := 420 },
         { name := "b.txt", contents := [2], mode := 420 }]
        [{ name := "b.txt", contents := [2], mode := 420 },
         { name := "a.txt", contents := [1], mode := 420 }] := by
  refine ⟨?_, ?_, ?_⟩ <;> decide

/-! ## Lazy resolution engine (modelled from the spec, sections 4.1 and 8) -/

mutual
/-- Modelled from the spec: a value handed to `resolve` is any nested
combination of primitives (strings, numbers, booleans, null), Tokens
(opaque handles), ordered sequences and mappings with concrete string
keys, to unbounded depth. The core resolution-engine sources are not part
of the corpus. -/
inductive CloudValue where
  | str : String → CloudValue
  | num : Int → CloudValue
  | boolV : Bool → CloudValue
  | nullV : CloudValue
  | token : Nat → CloudValue
  | list : CloudList → CloudValue
  | mapV : CloudMap → CloudValue

/-- An ordered sequence of values. -/
inductive CloudList where
  | nil : CloudList
  | cons : CloudValue → CloudList → CloudList

/-- A mapping with concrete string keys. -/
inductive CloudMap where
  | nil : CloudMap
  | cons : String → CloudValue → CloudMap → CloudMap
end

/-- The fatal error raised when the token-resolution depth bound is
exceeded. -/
def runawayTokenMessage : String := "circular or runaway token"

mutual
/-- Modelled from the spec: `resolve(value, context)` returns a primitive
unchanged, recursively resolves every element of a sequence and every
value of a mapping (keys are never resolved), and for a Token invokes its
resolver (`env`) and continues recursively on the result; the depth bound
`fuel` is consumed each time a resolver is invoked, and exceeding it is
the fatal "circular or runaway token" error. -/
def resolveVal (env : Nat → CloudValue) (fuel : Nat) :
    CloudValue → Except String CloudValue
  | .str s => .ok (.str s)
  | .num n => .ok (.num n)
  | .boolV b => .ok (.boolV b)
  | .nullV => .ok .nullV
  | .token t =>
    match fuel with
    | 0 => .error runawayTokenMessage
    | f + 1 => resolveVal env f (env t)
  | .list xs =>
    match resolveList env fuel xs with
    | .error e => .error e
    | .ok ys => .ok (.list ys)
  | .mapV m =>
    match resolveMap env fuel m with
    | .error e => .error e
    | .ok m2 => .ok (.mapV m2)
termination_by v => (fuel, sizeOf v)

/-- Resolve every element of a sequence. -/
def resolveList (env : Nat → CloudValue) (fuel : Nat) :
    CloudList → Except String CloudList
  | .nil => .ok .nil
  | .cons v vs =>
    match resolveVal env fuel v with
    | .error e => .error e
    | .ok v2 =>
      match resolveList env fuel vs with
      | .error e => .error e
      | .ok vs2 => .ok (.cons v2 vs2)
termination_by l => (fuel, sizeOf l)

/-- Resolve every value of a mapping; keys stay untouched. -/
def resolveMap (env : Nat → CloudValue) (fuel : Nat) :
    CloudMap → Except String CloudMap
  | .nil => .ok .nil
  | .cons k v m =>
    match resolveVal env fuel v with
    | .error e => .error e
    | .ok v2 =>
      match resolveMap env fuel m with
      | .error e => .error e
      | .ok m2 => .ok (.cons k v2 m2)
termination_by m2 => (fuel, sizeOf m2)
end

mutual
/-- Whether a value is fully resolved (contains no Token). -/
def tokenFreeVal : CloudValue → Bool
  | .str _ => true
  | .num _ => true
  | .boolV _ => true
  | .nullV => true
  | .token _ => false
  | .list xs => tokenFreeList xs
  | .mapV m => tokenFreeMap m

/-- Whether a sequence is fully resolved. -/
def tokenFreeList : CloudList → Bool
  | .nil => true
  | .cons v vs => tokenFreeVal v && tokenFreeList vs

/-- Whether a mapping is fully resolved. -/
def tokenFreeMap : CloudMap → Bool
  | .nil => true
  | .cons _ v m => tokenFreeVal v && tokenFreeMap m
end

mutual
/-- Resolution leaves a token-free value unchanged. -/
theorem resolveVal_tokenFree (env : Nat → CloudValue) (fuel : Nat) :
    ∀ v : CloudValue, tokenFreeVal v = true → resolveVal env fuel v = .ok v
  | .str s, _ => by simp [resolveVal]
  | .num n, _ => by simp [resolveVal]
  | .boolV b, _ => by simp [resolveVal]
  | .nullV, _ => by simp [resolveVal]
  | .token t, h => by simp [tokenFreeVal] at h
  | .list xs, h => by
    have hxs : tokenFreeList xs = true := by simpa [tokenFreeVal] using h
    have := resolveList_tokenFree env fuel xs hxs
    simp [resolveVal, this]
  | .mapV m, h => by
    have hm : tokenFreeMap m = true := by simpa [tokenFreeVal] using h
    have := resolveMap_tokenFree env fuel m hm
    simp [resolveVal, this]

/-- Resolution leaves a token-free sequence unchanged. -/
theorem resolveList_tokenFree (env : Nat → CloudValue) (fuel : Nat) :
    ∀ l : CloudList, tokenFreeList l = true → resolveList env fuel l = .ok l
  | .nil, _ => by simp [resolveList]
  | .cons v vs, h => by
    have hv : tokenFreeVal v = true := by
      have := h
      simp [tokenFreeList, Bool.and_eq_true] at this
      exact this.1
    have hvs : tokenFreeList vs = true := by
      have := h
      simp [tokenFreeList, Bool.and_eq_true] at this
      exact this.2
    have h1 := resolveVal_tokenFree env fuel v hv
    have h2 := resolveList_tokenFree env fuel vs hvs
    simp [resolveList, h1, h2]

/-- Resolution leaves a token-free mapping (and its keys) unchanged. -/
theorem resolveMap_tokenFree (env : Nat → CloudValue) (fuel : Nat) :
    ∀ m : CloudMap, tokenFreeMap m = true → resolveMap env fuel m = .ok m
  | .nil, _ => by simp [resolveMap]
  | .cons k v m, h => by
    have hv : tokenFreeVal v = true := by
      have := h
      simp [tokenFreeMap, Bool.and_eq_true] at this
      exact this.1
    have hm : tokenFreeMap m = true := by
      have := h
      simp [tokenFreeMap, Bool.and_eq_true] at this
      exact this.2
    have h1 := resolveVal_tokenFree env fuel v hv
    have h2 := resolveMap_tokenFree env fuel m hm
    simp [resolveMap, h1, h2]
end

/-- C6: resolution is the identity on fully-resolved values — for every
Token-free value (any nesting of primitives, ordered sequences and
mappings with concrete string keys), `resolve` returns the value
unchanged, for every resolver environment and every depth budget; in
particular every primitive is returned unchanged. -/
theorem resolve_identity_on_tokenFree (v : CloudValue) (h : tokenFreeVal v = true)
    (env : Nat → CloudValue) (fuel : Nat) :
    resolveVal env fuel v = .ok v :=
  resolveVal_tokenFree env fuel v h

/-- C6 witness: a concrete nested token-free value — a mapping holding a
string, a sequence of a number and null, and a boolean — resolves to
itself (with no fuel at all, since no resolver is ever invoked). -/
theorem resolve_identity_on_tokenFree_witness :
    resolveVal (fun _ => CloudValue.nullV) 0
        (.mapV (.cons "a" (.str "x")
          (.cons "b" (.list (.cons (.num 3) (.cons .nullV .nil)))
            (.cons "c" (.boolV true) .nil))))
      = .ok (.mapV (.cons "a" (.str "x")
          (.cons "b" (.list (.cons (.num 3) (.cons .nullV .nil)))
            (.cons "c" (.boolV true) .nil)))) :=
  resolve_identity_on_tokenFree _ (by decide) _ 0

/-- One step of the token-indirection chain starting at token `t`: the
id reached after `k` resolver invocations that again produced a token,
`none` once the chain leaves the token world. -/
def tokenIter (env : Nat → CloudValue) (t : Nat) : Nat → Option Nat
  | 0 => some t
  | k + 1 =>
    match tokenIter env t k with
    | some u =>
      match env u with
      | .token u2 => some u2
      | _ => none
    | none => none

/-- Following the chain from `t` one step after `env t = token u` is
following the chain from `u`. -/
theorem tokenIter_shift (env : Nat → CloudValue) (t u : Nat)
    (h : env t = .token u) :
    ∀ k, tokenIter env t (k + 1) = tokenIter env u k := by
  intro k
  induction k with
  | zero => simp [tokenIter, h]
  | succ j ih =>
    rw [show tokenIter env t (j + 1 + 1) =
        (match tokenIter env t (j + 1) with
         | some u3 =>
           match env u3 with
           | .token u2 => some u2
           | _ => none
         | none => none) from rfl]
    rw [ih]
    rfl

/-- C7: token resolution terminates on every input — `resolveVal` is a
total function — and a Token whose resolver keeps producing Tokens
(a self-reference or any cycle or infinite chain of token indirections)
fails with the fatal "circular or runaway token" error for every depth
budget, rather than looping forever. -/
theorem resolve_runaway_token (env : Nat → CloudValue) (t : Nat)
    (h : ∀ k, (tokenIter env t k).isSome = true) (fuel : Nat) :
    resolveVal env fuel (.token t) = .error runawayTokenMessage := by
  induction fuel generalizing t with
  | zero => simp [resolveVal]
  | succ f ih =>
    have h1 := h 1
    cases henv : env t with
    | token u =>
      have hstep : resolveVal env (f + 1) (.token t) = resolveVal env f (env t) := by
        simp [resolveVal]
      rw [hstep, henv]
      exact ih u fun k => by rw [← tokenIter_shift env t u henv k]; exact h (k + 1)
    | str s => simp [tokenIter, henv] at h1
    | num n => simp [tokenIter, henv] at h1
    | boolV b => simp [tokenIter, henv] at h1
    | nullV => simp [tokenIter, henv] at h1
    | list xs => simp [tokenIter, henv] at h1
    | mapV m => simp [tokenIter, henv] at h1

/-- The chain of the directly self-referential resolver stays on token 0
forever. -/
theorem selfLoop_tokenIter (k : Nat) :
    tokenIter (fun _ => CloudValue.token 0) 0 k = some 0 := by
  induction k with
  | zero => rfl
  | succ j ih => simp [tokenIter, ih]

/-- C7 witness: a Token whose resolver returns the Token itself fails
with the runaway error at a concrete depth budget. -/
theorem resolve_runaway_token_witness :
    resolveVal (fun _ => CloudValue.token 0) 5 (.token 0) =
      .error runawayTokenMessage :=
  resolve_runaway_token _ 0 (fun k => by rw [selfLoop_tokenIter k]; rfl) 5
